import Mathlib

/-!
Verification of the emergency-dispatch message pipeline.

Shallow embedding of the core services of the repository:
* `Triage`        — `services/triage/src/app.py`
* `EventsManager` — `services/events-manager/src/amqp_setup.py`
* `Billing`       — `services/billings/src/app.py`
* `Dispatch`      — `services/dispatch/src/app.py`
* `BrokerConfig`  — the consumer registrations of the three core services

Numeric JSON values are modelled as rationals (`ℚ`); machine floats in the
source are approximated by exact rational arithmetic, which is faithful on
every input the theorems below evaluate.  External effects (database, HTTP
insurance call, payment gateway, broker publishes) are modelled by explicit
boolean/record oracles passed to the embedded handler, one oracle per call
site, mirroring the source's control flow on success and on failure.
-/

/-- Python's `str.lower()` on the ASCII status strings the services exchange,
modelled as a character-wise map (kernel-reducible, unlike `String.toLower`). -/
def lowerAscii (s : String) : String :=
  String.mk (s.data.map Char.toLower)

/-- Python's `str.upper()` on the ASCII status strings the services exchange. -/
def upperAscii (s : String) : String :=
  String.mk (s.data.map Char.toUpper)

namespace Triage

/-- The `metrics` sub-object of a `wearable.data` message, restricted to the
keys `determine_triage_status` actually reads (`heartRateBpm`,
`spO2Percentage`).  A `none` field models an absent JSON key. -/
structure Metrics where
  heartRateBpm : Option ℚ
  spO2Percentage : Option ℚ
  deriving Repr, DecidableEq

/-- `determine_triage_status` from `services/triage/src/app.py`:
`hr = metrics.get("heartRateBpm", 0)`, `spo2 = metrics.get("spO2Percentage", 100)`,
then the ordered threshold checks, returning `(status, reason)`. -/
def determine_triage_status (metrics : Metrics) : String × String :=
  let hr := metrics.heartRateBpm.getD 0
  let spo2 := metrics.spO2Percentage.getD 100
  if spo2 < 91 then
    ("Emergency", "Critically low blood oxygen (Hypoxia).")
  else if hr > 150 ∨ hr < 40 then
    ("Emergency", "Critically abnormal heart rate.")
  else if spo2 < 95 then
    ("Abnormal", "Low blood oxygen.")
  else if hr > 120 ∨ hr < 50 then
    ("Abnormal", "Abnormal heart rate.")
  else
    ("Normal", "Vitals are within the normal range.")

/-- One consumed `wearable.data` reading, restricted to the fields
`process_message` reads. -/
structure Reading where
  userId : String
  metrics : Metrics
  deriving Repr, DecidableEq

/-- An event published by the triage service (routing key
`"triage.status." + status.lower()` on the topic exchange). -/
structure Pub where
  routingKey : String
  incident_id : String
  status : String
  deriving Repr, DecidableEq

/-- `process_message` from `services/triage/src/app.py`, as a function from
one consumed reading to the list of events it publishes.  `iid` is the fresh
`str(uuid.uuid4())` the handler generates.  The handler publishes whenever the
computed status is `"Emergency"` or `"Abnormal"` — it keeps no per-patient
state — and always acks in its `finally` block. -/
def process_message (iid : String) (r : Reading) : List Pub :=
  let status := (determine_triage_status r.metrics).1
  if status = "Emergency" ∨ status = "Abnormal" then
    [{ routingKey := "triage.status." ++ lowerAscii status
       incident_id := iid
       status := status }]
  else
    []

/-- A sequence of consumed readings (each paired with the UUID minted for it),
processed in broker delivery order; returns every event published. -/
def processRun : List (String × Reading) → List Pub
  | [] => []
  | (iid, r) :: rest => process_message iid r ++ processRun rest

/-- A reading whose `metrics` object is empty: both keys absent. -/
def emptyMetricsReading : Reading :=
  { userId := "P123", metrics := { heartRateBpm := none, spO2Percentage := none } }

end Triage

namespace EventsManager

/-- Routing key of dispatch-arrival events (`AMQPSetup.RK_DISPATCH_ARRIVED`). -/
def RK_DISPATCH_ARRIVED : String := "event.dispatch.arrived_at_hospital"

/-- An outbound publish of the events-manager, restricted to the fields the
claims inspect (the alert `vars` object is carried by the source but not
examined by any claim). -/
inductive Pub where
  | sendAlert (incident_id template : String)
  | requestAmbulance (incident_id : String) (patient_id : Option String)
      (command reason : String)
  | initiateBilling (incident_id : String)
  deriving Repr, DecidableEq

/-- The broker acknowledgement the handler issues for the consumed message. -/
inductive Ack where
  | ack
  | nackRequeue
  | nackDrop
  deriving Repr, DecidableEq

/-- `AMQPSetup._billing_initiated_incidents`: the in-memory idempotency
ledger, a set of incident ids.  Modelled as a list; the source mutates it
under `_dedup_lock`, and the consuming queue is single-active-consumer, so the
sequential semantics below is the source's semantics. -/
abbrev Ledger := List String

/-- `AMQPSetup._TEMPLATE_BY_RK`: routing key → alert template. -/
def templateByRk (rk : String) : Option String :=
  if rk = "event.dispatch.unit_assigned" then some "DISPATCH_UNIT_ASSIGNED"
  else if rk = "event.dispatch.enroute" then some "DISPATCH_ENROUTE"
  else if rk = "event.dispatch.patient_onboard" then some "DISPATCH_PATIENT_ONBOARD"
  else if rk = RK_DISPATCH_ARRIVED then some "DISPATCH_ARRIVED_AT_HOSPITAL"
  else none

/-- A consumed `triage.status.*` payload, restricted to the keys the handler
reads.  `none` models an absent JSON key. -/
structure TriagePayload where
  incident_id : Option String
  patient_id : Option String
  status : Option String
  deriving Repr, DecidableEq

/-- `AMQPSetup.publish_alert`: one `cmd.notification.send_alert` with template
`"TRIAGE_" + status.upper()`. -/
def publish_alert (incident_id status : String) : Pub :=
  .sendAlert incident_id ("TRIAGE_" ++ upperAscii status)

/-- `AMQPSetup.publish_dispatch_request_if_emergency`: returns without
publishing unless `status` is exactly `"emergency"`; otherwise one
`cmd.dispatch.request_ambulance` with `command="request_ambulance"` and
`reason="TRIAGE_EMERGENCY"`. -/
def publish_dispatch_request_if_emergency (incident_id : String)
    (patient_id : Option String) (status : String) : List Pub :=
  if status ≠ "emergency" then []
  else [.requestAmbulance incident_id patient_id "request_ambulance" "TRIAGE_EMERGENCY"]

/-- `AMQPSetup._on_triage_status`: read `payload["incident_id"]` and
`payload["status"]` (a missing key raises `KeyError`, caught as
nack-no-requeue), publish the alert, publish the conditional dispatch request,
then ack. -/
def on_triage_status (p : TriagePayload) : List Pub × Ack :=
  match p.incident_id, p.status with
  | some iid, some st =>
      (publish_alert iid st ::
        publish_dispatch_request_if_emergency iid p.patient_id st, .ack)
  | _, _ => ([], .nackDrop)

/-- A consumed dispatch-status payload, restricted to the keys the handler
requires (`payload["incident_id"]`, `payload["patient_id"]`). -/
structure DispatchPayload where
  incident_id : Option String
  patient_id : Option String
  deriving Repr, DecidableEq

/-- `AMQPSetup.publish_dispatch_status_alert`: look the routing key up in the
template table; publish one alert when a template exists, nothing otherwise. -/
def publish_dispatch_status_alert (rk : String) (incident_id : String) : List Pub :=
  match templateByRk rk with
  | none => []
  | some t => [.sendAlert incident_id t]

/-- `AMQPSetup.publish_initiate_billing`: under `_dedup_lock`, return if the
incident id is already in the ledger, otherwise insert it, then (outside the
lock) publish `cmd.billing.initiate`.  `publishRaises` is the oracle for the
broker publish call raising; the returned flag reports whether it raised.
The ledger insertion precedes the publish and is never rolled back. -/
def publish_initiate_billing (ledger : Ledger) (incident_id : String)
    (publishRaises : Bool) : Ledger × List Pub × Bool :=
  if incident_id ∈ ledger then (ledger, [], false)
  else
    (incident_id :: ledger,
     if publishRaises then [] else [.initiateBilling incident_id],
     publishRaises)

/-- `AMQPSetup._on_dispatch_update`: publish the status alert (a missing
required key raises `KeyError` → nack-no-requeue), then on the
`arrived_at_hospital` routing key additionally run
`publish_initiate_billing`; an exception from the publish is caught by the
generic handler branch → nack-with-requeue; otherwise ack. -/
def on_dispatch_update (initiatePublishRaises : Bool) (ledger : Ledger)
    (rk : String) (p : DispatchPayload) : Ledger × List Pub × Ack :=
  match p.incident_id, p.patient_id with
  | some iid, some _ =>
      let alerts := publish_dispatch_status_alert rk iid
      if rk = RK_DISPATCH_ARRIVED then
        let r := publish_initiate_billing ledger iid initiatePublishRaises
        (r.1, alerts ++ r.2.1, if r.2.2 then .nackRequeue else .ack)
      else
        (ledger, alerts, .ack)
  | _, _ => (ledger, [], .nackDrop)

/-- One delivery on the dispatch-status queue: its routing key, its payload,
and the oracle for whether the `cmd.billing.initiate` publish would raise
while handling it. -/
structure DMsg where
  initiatePublishRaises : Bool
  routingKey : String
  payload : DispatchPayload
  deriving Repr, DecidableEq

/-- A well-formed `arrived_at_hospital` delivery for incident `inc-1` whose
billing-initiate publish (if reached) succeeds. -/
def arrivedMsg1 : DMsg :=
  { initiatePublishRaises := false
    routingKey := RK_DISPATCH_ARRIVED
    payload := { incident_id := some "inc-1", patient_id := some "P123" } }

/-- Consume a sequence of dispatch-status deliveries in broker order
(the queue is single-active-consumer), threading the idempotency ledger and
collecting every publish. -/
def runDispatch (ledger : Ledger) : List DMsg → Ledger × List Pub
  | [] => (ledger, [])
  | m :: ms =>
      let step := on_dispatch_update m.initiatePublishRaises ledger m.routingKey m.payload
      let rest := runDispatch step.1 ms
      (rest.1, step.2.1 ++ rest.2)

/-- Number of `cmd.billing.initiate` publishes for incident `i` in a publish
trace. -/
def countInitiate (i : String) (pubs : List Pub) : Nat :=
  pubs.countP fun p =>
    match p with
    | .initiateBilling j => decide (j = i)
    | _ => false

/-- The delivery is a well-formed `arrived_at_hospital` event for incident
`i` (both required payload keys present, so the handler does not drop it). -/
def isArrivedFor (i : String) (m : DMsg) : Prop :=
  m.routingKey = RK_DISPATCH_ARRIVED ∧ m.payload.incident_id = some i ∧
    m.payload.patient_id ≠ none

instance (i : String) (m : DMsg) : Decidable (isArrivedFor i m) := by
  unfold isArrivedFor; infer_instance

end EventsManager

/-- Python's `int(...)` on a non-negative rational (truncation toward zero),
as used for `int(float(amount) * 100)` in the billing saga. -/
def pyIntTrunc (q : ℚ) : ℤ :=
  if 0 ≤ q then Int.fdiv q.num (q.den : ℤ) else -(Int.fdiv (-q).num ((-q).den : ℤ))

/-- Python truthiness of an optional string (`if payment_reference:`):
false for `None` and for the empty string. -/
def pyTruthyStr : Option String → Bool
  | none => false
  | some s => decide (s ≠ "")

namespace Billing

/-- Return value of `verify_insurance` (`services/billings/src/app.py`).  The
source function catches every exception internally and always returns a dict;
`reason` ranges over OK / NO_POLICY / INSUFFICIENT_COVERAGE /
SERVICE_UNAVAILABLE / SERVICE_ERROR. -/
structure InsuranceResult where
  verified : Bool
  reason : String
  message : String
  deriving Repr, DecidableEq

/-- Return value of `process_payment`.  The source function catches every
exception internally and always returns a dict; `payment_intent_id` is the
gateway reference, meaningful when `success` is true. -/
structure PaymentOutcome where
  success : Bool
  payment_intent_id : String
  error : String
  deriving Repr, DecidableEq

/-- Oracle for the external effects of one saga run, one field per call site
in `callback` / `rollback_billing`:
* `createRowOk` — the `INSERT INTO billings` of step 1;
* `billing_id` — `cursor.lastrowid` when the insert succeeds;
* `insurance` — the `verify_insurance` result (step 2);
* `payment` — the `process_payment` result (step 3);
* `dbUpdateOk` — the `UPDATE` to PAID inside `update_billing_status`
  (step 4); on error that function swallows the exception and returns False;
* `rollbackDbOk` — the `UPDATE` to CANCELLED inside the rollback;
* `completePublishOk` / `failPublishOk` — `publish_status_update` for the
  completed / failed event (that function swallows errors, returning a bool);
* `refundOk` — `stripe_service.refund_payment` success (logged only). -/
structure World where
  createRowOk : Bool
  billing_id : ℕ
  insurance : InsuranceResult
  payment : PaymentOutcome
  dbUpdateOk : Bool
  rollbackDbOk : Bool
  completePublishOk : Bool
  failPublishOk : Bool
  refundOk : Bool
  deriving Repr, DecidableEq

/-- A consumed `cmd.billing.initiate` message, restricted to the keys
`callback` reads.  `incident_id` and `patient_id` are required keys (a
missing one raises `KeyError` before any effect); `amount` and
`simulate_failure` are read with `.get`. -/
structure InitMsg where
  incident_id : String
  patient_id : String
  amount : Option ℚ
  simulate_failure : Option String
  deriving Repr, DecidableEq

/-- A billing status event handed to `publish_status_update`
(`event.billing.completed` / `event.billing.failed`). -/
inductive BEvent where
  | completed (billing_id : ℕ) (incident_id patient_id : String) (amount : ℚ)
  | failed (billing_id : ℕ) (incident_id patient_id : String) (amount : ℚ)
      (error : String)
  deriving Repr, DecidableEq

/-- Observable result of one saga run:
* `attempted` — events handed to `publish_status_update`;
* `published` — those whose publish call succeeded;
* `refundAttempted` — whether `stripe_service.refund_payment` was called;
* `rowAmount` — the amount INSERTed, when step 1 succeeded;
* `insuranceAmount` — the amount passed to `verify_insurance`, when reached;
* `gatewayCents` — the cents value passed to `process_payment`, when reached;
* `gatewayDollars` — the dollars value `process_payment` forwards to the
  gateway (`float(amount) / 100`);
* `rowStatus` — the billing row's status at the end of the run. -/
structure Outcome where
  attempted : List BEvent
  published : List BEvent
  refundAttempted : Bool
  rowAmount : Option ℚ
  insuranceAmount : Option ℚ
  gatewayCents : Option ℤ
  gatewayDollars : Option ℚ
  rowStatus : Option String
  deriving Repr, DecidableEq

/-- Result of `rollback_billing`: whether a refund was attempted, whether the
CANCELLED update succeeded, and the failure events attempted/published. -/
structure RollbackOut where
  refundAttempted : Bool
  cancelled : Bool
  attempted : List BEvent
  published : List BEvent
  deriving Repr, DecidableEq

/-- `rollback_billing` (`services/billings/src/app.py`): (1) refund the
payment when `payment_reference` is truthy (non-None, non-empty); (2) mark
the row CANCELLED when `billing_id` is truthy; (3) publish
`event.billing.failed` when `billing_id`, `incident_id` and `patient_id` are
all truthy.  Each step's own failure is logged and does not stop the next. -/
def rollback_billing (w : World) (billing_id : Option ℕ)
    (payment_reference : Option String) (incident_id patient_id : String)
    (amount : ℚ) (failure_reason : String) : RollbackOut :=
  let bidTruthy : Bool :=
    match billing_id with
    | none => false
    | some n => decide (n ≠ 0)
  let refundAttempted := pyTruthyStr payment_reference
  let cancelled := bidTruthy && w.rollbackDbOk
  let attempted :=
    if bidTruthy && decide (incident_id ≠ "") && decide (patient_id ≠ "") then
      [BEvent.failed (billing_id.getD 0) incident_id patient_id amount failure_reason]
    else []
  { refundAttempted := refundAttempted
    cancelled := cancelled
    attempted := attempted
    published := if w.failPublishOk then attempted else [] }

/-- `callback` (`services/billings/src/app.py`), the saga on one consumed
`cmd.billing.initiate` message: create row (failure: plain `return`, no
event) → verify insurance → process payment → `simulate_failure == "payment"`
hook raising before the PAID update → `update_billing_status` (its boolean
return is ignored by the source, so a failed PAID update still reaches
step 5) → publish the completed event.  `verify_insurance` and
`process_payment` never raise (they catch internally), so the saga's step-2/3
`except` branches and the outer catch-all are unreachable for well-formed
messages and are not modelled. -/
def callback (w : World) (msg : InitMsg) : Outcome :=
  let amount := msg.amount.getD 100
  if ¬ w.createRowOk then
    { attempted := [], published := [], refundAttempted := false,
      rowAmount := none, insuranceAmount := none, gatewayCents := none,
      gatewayDollars := none, rowStatus := none }
  else
    let bid := w.billing_id
    if ¬ w.insurance.verified then
      let rb := rollback_billing w (some bid) none msg.incident_id msg.patient_id
        amount ("Insurance verification failed: " ++ w.insurance.message)
      { attempted := rb.attempted, published := rb.published,
        refundAttempted := rb.refundAttempted,
        rowAmount := some amount, insuranceAmount := some amount,
        gatewayCents := none, gatewayDollars := none,
        rowStatus := if rb.cancelled then some "CANCELLED" else some "PENDING" }
    else
      let cents := pyIntTrunc (amount * 100)
      if ¬ w.payment.success then
        let rb := rollback_billing w (some bid) none msg.incident_id msg.patient_id
          amount ("Payment failed: " ++ w.payment.error)
        { attempted := rb.attempted, published := rb.published,
          refundAttempted := rb.refundAttempted,
          rowAmount := some amount, insuranceAmount := some amount,
          gatewayCents := some cents, gatewayDollars := some ((cents : ℚ) / 100),
          rowStatus := if rb.cancelled then some "CANCELLED" else some "PENDING" }
      else
        let pref := w.payment.payment_intent_id
        if msg.simulate_failure = some "payment" then
          let rb := rollback_billing w (some bid) (some pref) msg.incident_id
            msg.patient_id amount
            "Database update failed after payment: Simulated payment failure"
          { attempted := rb.attempted, published := rb.published,
            refundAttempted := rb.refundAttempted,
            rowAmount := some amount, insuranceAmount := some amount,
            gatewayCents := some cents, gatewayDollars := some ((cents : ℚ) / 100),
            rowStatus := if rb.cancelled then some "CANCELLED" else some "PENDING" }
        else
          let evt := BEvent.completed bid msg.incident_id msg.patient_id amount
          { attempted := [evt],
            published := if w.completePublishOk then [evt] else [],
            refundAttempted := false,
            rowAmount := some amount, insuranceAmount := some amount,
            gatewayCents := some cents, gatewayDollars := some ((cents : ℚ) / 100),
            rowStatus := if w.dbUpdateOk then some "PAID" else some "PENDING" }

/-- Predicate: the event is an `event.billing.completed`. -/
def isCompletedEvt : BEvent → Bool
  | .completed .. => true
  | .failed .. => false

/-- Predicate: the event is an `event.billing.failed`. -/
def isFailedEvt : BEvent → Bool
  | .completed .. => false
  | .failed .. => true

/-- Oracle where every external effect succeeds (happy path). -/
def worldHappy : World :=
  { createRowOk := true, billing_id := 7,
    insurance := { verified := true, reason := "OK", message := "ok" },
    payment := { success := true, payment_intent_id := "pi_123", error := "" },
    dbUpdateOk := true, rollbackDbOk := true,
    completePublishOk := true, failPublishOk := true, refundOk := true }

/-- Oracle where the step-1 `INSERT INTO billings` fails and everything else
would succeed. -/
def worldRowInsertFails : World :=
  { worldHappy with createRowOk := false }

/-- Oracle where the insurance service answers 404 (`verified=False`,
reason NO_POLICY) and everything else would succeed. -/
def worldNoPolicy : World :=
  { worldHappy with
    insurance := { verified := false, reason := "NO_POLICY",
                   message := "No active policy found for patient" } }

/-- Oracle where the payment succeeds (reference `pi_123`) but the `UPDATE`
to PAID inside `update_billing_status` fails, making it return `False`. -/
def worldDbUpdateFails : World :=
  { worldHappy with dbUpdateOk := false }

/-- A `cmd.billing.initiate` message without an `amount` key, as the
events-manager produces (its `InitiateBilling` payload carries no amount). -/
def msgNoAmount : InitMsg :=
  { incident_id := "inc-9", patient_id := "P9", amount := none,
    simulate_failure := none }

/-- The spec's scenario-2 message: incident "X", patient "P999",
amount 50.00. -/
def msgScenario2 : InitMsg :=
  { incident_id := "X", patient_id := "P999", amount := some 50,
    simulate_failure := none }

end Billing

namespace Dispatch

/-- A row of the dispatch-local `hospitals` table
(`services/dispatch/src/app.py`). -/
structure Hospital where
  id : String
  name : String
  lat : ℚ
  lng : ℚ
  capacity : ℤ
  deriving Repr, DecidableEq

/-- `max(0, 5 - hospital.capacity) * 0.5` from `pick_best_hospital`. -/
def capacityPenalty (h : Hospital) : ℚ :=
  ((max 0 (5 - h.capacity) : ℤ) : ℚ) * (1 / 2)

/-- `score = dist + capacity_penalty - (severity * 0.1)` from
`pick_best_hospital`.  `d` is `haversine_distance(patient_loc, (lat, lng))`,
a transcendental float computation taken as a parameter of the model. -/
def score (d : Hospital → ℚ) (severity : ℚ) (h : Hospital) : ℚ :=
  d h + capacityPenalty h - severity * (1 / 10)

/-- Floor of a rational as an integer (`Int.fdiv` of numerator by
denominator). -/
def ratFloor (q : ℚ) : ℤ := Int.fdiv q.num (q.den : ℤ)

/-- Python's `round` to the nearest integer, ties to even (banker's
rounding), on exact rationals. -/
def roundHalfEven (q : ℚ) : ℤ :=
  let f := ratFloor q
  let r := q - (f : ℚ)
  if r < 1 / 2 then f
  else if 1 / 2 < r then f + 1
  else if f % 2 = 0 then f else f + 1

/-- Python's `round(x, 3)` used in `"score": round(score, 3)` — the
candidates are sorted by this ROUNDED score. -/
def round3 (q : ℚ) : ℚ := (roundHalfEven (q * 1000) : ℚ) / 1000

/-- First-encountered minimum of `key` over `x :: ys`: keeps the current best
and replaces it only on a strictly smaller key.  This is exactly the head of
a stable sort by `key` (Python's `list.sort` is stable), i.e. `candidates[0]`
after `candidates.sort(key=...)`. -/
def selectMinBy {α : Type} (key : α → ℚ) (x : α) : List α → α
  | [] => x
  | y :: ys => selectMinBy key (if key y < key x then y else x) ys

/-- `pick_best_hospital` (`services/dispatch/src/app.py`), database branch:
build a candidate per hospital with `"score": round(score, 3)`, sort the
candidates by that rounded score (stable), return the first.  On an empty
table the source falls back to the external Google Places lookup, outside
this model (`none`). -/
def pick_best_hospital (d : Hospital → ℚ) (severity : ℚ) :
    List Hospital → Option Hospital
  | [] => none
  | h :: hs => some (selectMinBy (fun x => round3 (score d severity x)) h hs)

/-- Two seeded-style hospitals with ample capacity (no capacity penalty),
used as a concrete scoring instance. -/
def hospA : Hospital :=
  { id := "hosp-A", name := "Hospital A", lat := 0, lng := 0, capacity := 10 }

/-- Second concrete hospital. -/
def hospB : Hospital :=
  { id := "hosp-B", name := "Hospital B", lat := 0, lng := 0, capacity := 10 }

/-- A concrete distance table: `hosp-A` at 1.0004 km, anything else at
1.0001 km. -/
def dEx (h : Hospital) : ℚ :=
  if h.id = "hosp-A" then 10004 / 10000 else 10001 / 10000

end Dispatch

namespace BrokerConfig

/-- One `basic_consume` registration: the registering service, the consumed
queue, and its `auto_ack` flag. -/
structure ConsumerReg where
  service : String
  queue : String
  auto_ack : Bool
  deriving Repr, DecidableEq

/-- `AMQPSetup.start_consumers` in `services/events-manager/src/amqp_setup.py`:
three registrations, each with `auto_ack=False` (the handlers ack/nack
explicitly). -/
def eventsManagerConsumers : List ConsumerReg :=
  [ { service := "events-manager", queue := "events-manager.q.triage-actionable",
      auto_ack := false },
    { service := "events-manager", queue := "events-manager.q.dispatch-status",
      auto_ack := false },
    { service := "events-manager", queue := "events-manager.q.billing-status",
      auto_ack := false } ]

/-- `AMQPSetup.setup_topology` ends with `ch.basic_qos(prefetch_count=16)`. -/
def eventsManagerPrefetch : Option ℕ := some 16

/-- `consume()` in `services/billings/src/app.py` registers its callback with
`auto_ack=True` (both on connect and on reconnect); the callback never calls
`basic_ack`/`basic_nack`. -/
def billingsConsumer : ConsumerReg :=
  { service := "billings", queue := "Billings", auto_ack := true }

/-- Neither `services/billings/src/amqp_setup.py` nor its consumer issues
`basic_qos`: no prefetch is set. -/
def billingsPrefetch : Option ℕ := none

/-- `consume()` in `services/dispatch/src/app.py` registers its callback with
`auto_ack=True`; the callback never calls `basic_ack`/`basic_nack`. -/
def dispatchConsumer : ConsumerReg :=
  { service := "dispatch", queue := "Dispatch", auto_ack := true }

/-- `services/dispatch/src/app.py` and `services/dispatch/src/amqp_setup.py`
never issue `basic_qos`: no prefetch is set. -/
def dispatchPrefetch : Option ℕ := none

/-- All consumer registrations of the three core components. -/
def coreConsumers : List ConsumerReg :=
  eventsManagerConsumers ++ [dispatchConsumer, billingsConsumer]

end BrokerConfig

namespace EventsManager

theorem countInitiate_append (i : String) (a b : List Pub) :
    countInitiate i (a ++ b) = countInitiate i a + countInitiate i b :=
  List.countP_append _ _ _

theorem countInitiate_alerts (i rk iid : String) :
    countInitiate i (publish_dispatch_status_alert rk iid) = 0 := by
  unfold publish_dispatch_status_alert
  cases templateByRk rk <;>
    simp [countInitiate, List.countP_cons, List.countP_nil]

theorem pib_ledger_mem (st : Ledger) (iid : String) (b : Bool) (i : String)
    (h : i ∈ st) : i ∈ (publish_initiate_billing st iid b).1 := by
  unfold publish_initiate_billing
  split
  · exact h
  · exact List.mem_cons_of_mem _ h

theorem pib_count_mem (st : Ledger) (iid : String) (b : Bool) (i : String)
    (h : iid ∈ st) : countInitiate i (publish_initiate_billing st iid b).2.1 = 0 := by
  unfold publish_initiate_billing
  rw [if_pos h]
  simp [countInitiate]

theorem pib_count_ne (st : Ledger) (iid : String) (b : Bool) (i : String)
    (h : iid ≠ i) : countInitiate i (publish_initiate_billing st iid b).2.1 = 0 := by
  unfold publish_initiate_billing
  split
  · simp [countInitiate]
  · cases b <;> simp [countInitiate, List.countP_cons, List.countP_nil, h]

theorem step_mem_ledger (b : Bool) (st : Ledger) (rk : String) (p : DispatchPayload)
    (i : String) (h : i ∈ st) : i ∈ (on_dispatch_update b st rk p).1 := by
  rcases p with ⟨pi, pp⟩
  cases pi <;> cases pp <;> simp only [on_dispatch_update] <;> try exact h
  split
  · exact pib_ledger_mem _ _ _ _ h
  · exact h

theorem step_count_mem (b : Bool) (st : Ledger) (rk : String) (p : DispatchPayload)
    (i : String) (h : i ∈ st) :
    countInitiate i (on_dispatch_update b st rk p).2.1 = 0 := by
  rcases p with ⟨pi, pp⟩
  cases pi with
  | none => cases pp <;> simp [on_dispatch_update, countInitiate]
  | some iid =>
      cases pp with
      | none => simp [on_dispatch_update, countInitiate]
      | some pid =>
          simp only [on_dispatch_update]
          split
          · dsimp only
            rw [countInitiate_append, countInitiate_alerts]
            by_cases hiid : iid ∈ st
            · rw [pib_count_mem _ _ _ _ hiid]
            · have hne : iid ≠ i := fun hee => hiid (hee ▸ h)
              rw [pib_count_ne _ _ _ _ hne]
          · exact countInitiate_alerts _ _ _

theorem run_count_mem (msgs : List DMsg) (st : Ledger) (i : String) (h : i ∈ st) :
    countInitiate i (runDispatch st msgs).2 = 0 := by
  induction msgs generalizing st with
  | nil => simp [runDispatch, countInitiate]
  | cons m ms ih =>
      simp only [runDispatch, countInitiate_append]
      rw [step_count_mem _ _ _ _ _ h, ih _ (step_mem_ledger _ _ _ _ _ h)]

theorem templateByRk_arrived :
    templateByRk RK_DISPATCH_ARRIVED = some "DISPATCH_ARRIVED_AT_HOSPITAL" := by
  decide

theorem pib_ledger_fresh (st : Ledger) (iid : String) (b : Bool) (i : String)
    (hfresh : i ∉ st) (hne : iid ≠ i) :
    i ∉ (publish_initiate_billing st iid b).1 := by
  unfold publish_initiate_billing
  split
  · exact hfresh
  · intro hmem
    rcases List.mem_cons.mp hmem with he | hm
    · exact hne he.symm
    · exact hfresh hm

theorem step_fresh_count (b : Bool) (st : Ledger) (rk : String) (p : DispatchPayload)
    (i : String) (hna : ¬ isArrivedFor i ⟨b, rk, p⟩) :
    countInitiate i (on_dispatch_update b st rk p).2.1 = 0 ∧
      (i ∉ st → i ∉ (on_dispatch_update b st rk p).1) := by
  rcases p with ⟨pi, pp⟩
  cases pi with
  | none =>
      cases pp <;> simp [on_dispatch_update, countInitiate]
  | some iid =>
      cases pp with
      | none => simp [on_dispatch_update, countInitiate]
      | some pid =>
          simp only [on_dispatch_update]
          split
          · rename_i hrk
            have hne : iid ≠ i := by
              intro he
              exact hna ⟨hrk, by simp [he], by simp⟩
            dsimp only
            refine ⟨?_, fun hf => pib_ledger_fresh _ _ _ _ hf hne⟩
            rw [countInitiate_append, countInitiate_alerts,
              pib_count_ne _ _ _ _ hne]
          · exact ⟨countInitiate_alerts _ _ _, fun hf => hf⟩

theorem step_arrived_fresh (st : Ledger) (i pid : String) (hfresh : i ∉ st) :
    on_dispatch_update false st RK_DISPATCH_ARRIVED ⟨some i, some pid⟩ =
      (i :: st,
        [Pub.sendAlert i "DISPATCH_ARRIVED_AT_HOSPITAL", Pub.initiateBilling i],
        Ack.ack) := by
  simp [on_dispatch_update, publish_initiate_billing,
    publish_dispatch_status_alert, templateByRk_arrived, hfresh]

theorem run_count_fresh (msgs : List DMsg) (st : Ledger) (i : String)
    (hfresh : i ∉ st) (hok : ∀ m ∈ msgs, m.initiatePublishRaises = false) :
    countInitiate i (runDispatch st msgs).2 =
      if ∃ m ∈ msgs, isArrivedFor i m then 1 else 0 := by
  induction msgs generalizing st with
  | nil => simp [runDispatch, countInitiate]
  | cons m ms ih =>
      simp only [runDispatch, countInitiate_append]
      by_cases ha : isArrivedFor i m
      · rw [if_pos ⟨m, List.mem_cons_self m ms, ha⟩]
        obtain ⟨hrk, hiid, hpid⟩ := ha
        rcases m with ⟨b, rk, p⟩
        rcases p with ⟨pi, pp⟩
        have hb : b = false := hok _ (List.mem_cons_self _ _)
        cases pp with
        | none => exact absurd rfl hpid
        | some pid =>
            simp only at hrk hiid hb
            subst hrk hiid hb
            rw [step_arrived_fresh st i pid hfresh]
            dsimp only
            rw [run_count_mem ms (i :: st) i (List.mem_cons_self i st)]
            simp [countInitiate, List.countP_cons]
      · have hsplit : (∃ x ∈ m :: ms, isArrivedFor i x) ↔
            (∃ x ∈ ms, isArrivedFor i x) := by
          constructor
          · rintro ⟨x, hx, px⟩
            rcases List.mem_cons.mp hx with he | hm
            · exact absurd (he ▸ px) ha
            · exact ⟨x, hm, px⟩
          · rintro ⟨x, hx, px⟩
            exact ⟨x, List.mem_cons_of_mem _ hx, px⟩
        rw [if_congr hsplit rfl rfl]
        obtain ⟨hc, hl⟩ := step_fresh_count m.initiatePublishRaises st m.routingKey
          m.payload i (by rcases m with ⟨b, rk, p⟩; exact ha)
        rw [hc, ih _ (hl hfresh) (fun x hx => hok x (List.mem_cons_of_mem _ hx))]
        exact Nat.zero_add _

theorem step_arrived_fresh_raise (st : Ledger) (i pid : String) (hfresh : i ∉ st) :
    on_dispatch_update true st RK_DISPATCH_ARRIVED ⟨some i, some pid⟩ =
      (i :: st, [Pub.sendAlert i "DISPATCH_ARRIVED_AT_HOSPITAL"], Ack.nackRequeue) := by
  simp [on_dispatch_update, publish_initiate_billing,
    publish_dispatch_status_alert, templateByRk_arrived, hfresh]

/-- C2: for every incident id not yet in the idempotency ledger, across any
sequence of consumed dispatch-status deliveries containing at least one
well-formed `event.dispatch.arrived_at_hospital` message for that incident
(duplicates and broker redeliveries included), the events-manager publishes
`cmd.billing.initiate` for that incident exactly once, guarded by the
check-then-insert on the in-memory ledger (performed under `_dedup_lock` in
the source; the input queue is single-active-consumer, so handling is
sequential). -/
theorem c2_initiate_billing_published_exactly_once (st : Ledger)
    (msgs : List DMsg) (i : String) (hfresh : i ∉ st)
    (hok : ∀ m ∈ msgs, m.initiatePublishRaises = false)
    (hsome : ∃ m ∈ msgs, isArrivedFor i m) :
    countInitiate i (runDispatch st msgs).2 = 1 := by
  rw [run_count_fresh msgs st i hfresh hok, if_pos hsome]

theorem c2_initiate_billing_published_exactly_once_witness :
    countInitiate "inc-1" (runDispatch [] [arrivedMsg1, arrivedMsg1]).2 = 1 :=
  c2_initiate_billing_published_exactly_once [] [arrivedMsg1, arrivedMsg1] "inc-1"
    (by decide) (by decide) (by decide)

/-- C7: the incident id is inserted into the ledger before the
`cmd.billing.initiate` publish is attempted, and the insertion is not rolled
back when the publish raises: handling a well-formed arrived message whose
initiate publish raises leaves the id in the ledger, publishes no initiate
command, nacks with requeue, and every later delivery (however many
redeliveries, with the publish now working) still publishes no
`cmd.billing.initiate` for that incident. -/
theorem c7_failed_initiate_publish_permanently_blocks_billing (st : Ledger)
    (i pid : String) (msgs : List DMsg) (hfresh : i ∉ st) :
    i ∈ (on_dispatch_update true st RK_DISPATCH_ARRIVED ⟨some i, some pid⟩).1 ∧
    (on_dispatch_update true st RK_DISPATCH_ARRIVED ⟨some i, some pid⟩).2.2 =
      Ack.nackRequeue ∧
    countInitiate i
      (on_dispatch_update true st RK_DISPATCH_ARRIVED ⟨some i, some pid⟩).2.1 = 0 ∧
    countInitiate i
      (runDispatch
        (on_dispatch_update true st RK_DISPATCH_ARRIVED ⟨some i, some pid⟩).1
        msgs).2 = 0 := by
  rw [step_arrived_fresh_raise st i pid hfresh]
  refine ⟨List.mem_cons_self i st, rfl, ?_, ?_⟩
  · simp [countInitiate]
  · exact run_count_mem msgs (i :: st) i (List.mem_cons_self i st)

theorem c7_failed_initiate_publish_permanently_blocks_billing_witness :
    countInitiate "inc-1"
      (runDispatch
        (on_dispatch_update true [] RK_DISPATCH_ARRIVED
          ⟨some "inc-1", some "P123"⟩).1
        [arrivedMsg1]).2 = 0 :=
  (c7_failed_initiate_publish_permanently_blocks_billing [] "inc-1" "P123"
    [arrivedMsg1] (by decide)).2.2.2

/-- C3 (code bug): the triage service labels an emergency reading with the
capitalised status string `"Emergency"` (here computed from
`determine_triage_status` on an empty metrics object), while the
events-manager's `publish_dispatch_request_if_emergency` compares the status
against the lowercase literal `"emergency"`.  Consuming that exact event, the
events-manager publishes exactly one `cmd.notification.send_alert` with
template `TRIAGE_EMERGENCY` and NO `cmd.dispatch.request_ambulance`,
contradicting the claim that both commands are published. -/
theorem c3_emergency_event_produces_no_dispatch_request :
    (Triage.determine_triage_status Triage.emptyMetricsReading.metrics).1 =
      "Emergency" ∧
    on_triage_status
        { incident_id := some "inc-1", patient_id := some "P123",
          status :=
            some (Triage.determine_triage_status
              Triage.emptyMetricsReading.metrics).1 } =
      ([Pub.sendAlert "inc-1" "TRIAGE_EMERGENCY"], Ack.ack) := by
  decide

end EventsManager

/-- C1 (code bug): `process_message` keeps no per-patient last-status ledger;
a run of two consecutive readings of the same patient, both classifying to
the same actionable status (Emergency), produces two
`triage.status.emergency` publishes, where the claim (and the triage
service's own integration tests) require at most one event per run of equal
consecutive statuses. -/
theorem c1_consecutive_equal_statuses_not_deduplicated :
    Triage.processRun
        [("id-1", Triage.emptyMetricsReading), ("id-2", Triage.emptyMetricsReading)] =
      [ { routingKey := "triage.status.emergency", incident_id := "id-1",
          status := "Emergency" },
        { routingKey := "triage.status.emergency", incident_id := "id-2",
          status := "Emergency" } ] := by
  decide

/-- C5 (code bug): the classifier's abnormal heart-rate rule fires only for
`hr > 120 or hr < 50` — a reading with heart rate 110 and SpO2 98 classifies
as `Normal`, where the claim's table (`heart_rate > 100 → abnormal`) and the
repository's own unit test expect `Abnormal`.  The code has no temperature or
respiration rule at all, and a missing SpO2 defaults to the in-range 100;
empty metrics still classify as Emergency, but via the heart-rate default 0,
as the second conjunct shows. -/
theorem c5_classifier_rules_differ_from_spec_table :
    Triage.determine_triage_status
        { heartRateBpm := some 110, spO2Percentage := some 98 } =
      ("Normal", "Vitals are within the normal range.") ∧
    Triage.determine_triage_status
        { heartRateBpm := none, spO2Percentage := none } =
      ("Emergency", "Critically abnormal heart rate.") := by
  decide

namespace Billing

unseal Rat.add Rat.sub Rat.mul Rat.inv in
theorem pyIntTrunc_hundred_times_hundred : pyIntTrunc ((100 : ℚ) * 100) = 10000 := by
  decide

unseal Rat.add Rat.sub Rat.mul Rat.inv in
theorem cents_of_hundred_back_to_dollars :
    ((pyIntTrunc ((100 : ℚ) * 100) : ℚ) / 100) = 100 := by
  decide

unseal Rat.mul Rat.inv in
theorem ten_thousand_div_hundred : ((10000 : ℚ) / 100) = 100 := by
  decide

/-- C4 counterexample: when the step-1 `INSERT INTO billings` fails (spec
scenario-2 message, incident "X", patient "P999", amount 50.00), the saga
returns without handing any event to `publish_status_update`: it terminates
with neither an `event.billing.completed` nor an `event.billing.failed`,
refuting the claim that a create-row failure ends with exactly one failed
event. -/
theorem c4_counterexample_create_row_failure_publishes_no_event :
    (callback worldRowInsertFails msgScenario2).attempted = [] ∧
    (callback worldRowInsertFails msgScenario2).published = [] := by
  decide

/-- C4 (amended): on a consumed `InitiateBilling` message with truthy
`incident_id`, `patient_id` and row id, the saga attempts at most one
terminal status publish: none at all when the create-row insert fails, and
otherwise exactly one — a completed event precisely when insurance verifies,
payment succeeds and step 4 raises no exception, a failed event on the other
paths; the event reaches the broker only when that `publish_status_update`
call succeeds (otherwise the run ends with zero published events). -/
theorem c4_amended_saga_attempts_at_most_one_terminal_event (w : World)
    (msg : InitMsg) (hbid : w.billing_id ≠ 0) (hinc : msg.incident_id ≠ "")
    (hpat : msg.patient_id ≠ "") :
    (w.createRowOk = false → (callback w msg).attempted = []) ∧
    (w.createRowOk = true →
      (callback w msg).attempted.length = 1 ∧
      ((callback w msg).attempted.countP isCompletedEvt = 1 ↔
        (w.insurance.verified = true ∧ w.payment.success = true ∧
          msg.simulate_failure ≠ some "payment"))) ∧
    ((callback w msg).published = (callback w msg).attempted ∨
      (callback w msg).published = []) := by
  have hb : (decide (w.billing_id ≠ 0)) = true := decide_eq_true hbid
  have hi : (decide (msg.incident_id ≠ "")) = true := decide_eq_true hinc
  have hp : (decide (msg.patient_id ≠ "")) = true := decide_eq_true hpat
  by_cases hcr : w.createRowOk
  · by_cases hv : w.insurance.verified
    · by_cases hs : w.payment.success
      · by_cases hsim : msg.simulate_failure = some "payment"
        · by_cases hfp : w.failPublishOk <;>
            simp [callback, rollback_billing, hcr, hv, hs, hsim, hb, hi, hp,
              hfp, isCompletedEvt, List.countP_cons, List.countP_nil]
        · by_cases hcp : w.completePublishOk <;>
            simp [callback, hcr, hv, hs, hsim, hcp, isCompletedEvt,
              List.countP_cons, List.countP_nil]
      · by_cases hfp : w.failPublishOk <;>
          simp [callback, rollback_billing, hcr, hv, hs, hb, hi, hp, hfp,
            isCompletedEvt, List.countP_cons, List.countP_nil]
    · by_cases hfp : w.failPublishOk <;>
        simp [callback, rollback_billing, hcr, hv, hb, hi, hp, hfp,
          isCompletedEvt, List.countP_cons, List.countP_nil]
  · simp [callback, hcr]

theorem c4_amended_saga_attempts_at_most_one_terminal_event_witness :
    (worldNoPolicy.createRowOk = false →
      (callback worldNoPolicy msgScenario2).attempted = []) ∧
    (worldNoPolicy.createRowOk = true →
      (callback worldNoPolicy msgScenario2).attempted.length = 1 ∧
      ((callback worldNoPolicy msgScenario2).attempted.countP isCompletedEvt = 1 ↔
        (worldNoPolicy.insurance.verified = true ∧
          worldNoPolicy.payment.success = true ∧
          msgScenario2.simulate_failure ≠ some "payment"))) ∧
    ((callback worldNoPolicy msgScenario2).published =
        (callback worldNoPolicy msgScenario2).attempted ∨
      (callback worldNoPolicy msgScenario2).published = []) :=
  c4_amended_saga_attempts_at_most_one_terminal_event worldNoPolicy msgScenario2
    (by decide) (by decide) (by decide)

unseal Rat.add Rat.sub Rat.mul Rat.inv in
/-- C6 (code bug): on a run where insurance verifies and the payment succeeds
(reference `pi_123`) but the database `UPDATE` to PAID fails,
`update_billing_status` swallows the error and returns `False`, and
`callback` ignores that return value: no compensation runs — no refund is
attempted, the row is left PENDING rather than CANCELLED — and the saga
publishes `event.billing.completed` instead of `event.billing.failed`,
contradicting the claim (and the source's own step-4 compensation branch,
which is unreachable for a database-level failure). -/
theorem c6_db_update_failure_after_payment_skips_refund :
    (callback worldDbUpdateFails msgNoAmount).refundAttempted = false ∧
    (callback worldDbUpdateFails msgNoAmount).rowStatus = some "PENDING" ∧
    (callback worldDbUpdateFails msgNoAmount).attempted =
      [BEvent.completed 7 "inc-9" "P9" 100] ∧
    (callback worldDbUpdateFails msgNoAmount).published =
      [BEvent.completed 7 "inc-9" "P9" 100] := by
  decide

/-- C9: a consumed `cmd.billing.initiate` message without an `amount` key is
not rejected: the saga proceeds with `amount = message_body.get("amount",
100)`, inserts the billing row with amount 100, verifies insurance for
amount 100, and (once insurance verifies) calls the payment gateway with
`int(float(100) * 100) = 10000` cents, i.e. 100 dollars. -/
theorem c9_missing_amount_defaults_to_100 (w : World) (msg : InitMsg)
    (hno : msg.amount = none) (hcr : w.createRowOk = true) :
    (callback w msg).rowAmount = some 100 ∧
    (callback w msg).insuranceAmount = some 100 ∧
    (w.insurance.verified = true →
      (callback w msg).gatewayCents = some 10000 ∧
      (callback w msg).gatewayDollars = some 100) := by
  by_cases hv : w.insurance.verified
  · by_cases hs : w.payment.success
    · by_cases hsim : msg.simulate_failure = some "payment"
      · simp [callback, hno, hcr, hv, hs, hsim,
          pyIntTrunc_hundred_times_hundred, cents_of_hundred_back_to_dollars,
          ten_thousand_div_hundred]
      · simp [callback, hno, hcr, hv, hs, hsim,
          pyIntTrunc_hundred_times_hundred, cents_of_hundred_back_to_dollars,
          ten_thousand_div_hundred]
    · simp [callback, hno, hcr, hv, hs,
        pyIntTrunc_hundred_times_hundred, cents_of_hundred_back_to_dollars,
          ten_thousand_div_hundred]
  · simp [callback, hno, hcr, hv]

theorem c9_missing_amount_defaults_to_100_witness :
    (callback worldHappy msgNoAmount).rowAmount = some 100 ∧
    (callback worldHappy msgNoAmount).insuranceAmount = some 100 ∧
    (worldHappy.insurance.verified = true →
      (callback worldHappy msgNoAmount).gatewayCents = some 10000 ∧
      (callback worldHappy msgNoAmount).gatewayDollars = some 100) :=
  c9_missing_amount_defaults_to_100 worldHappy msgNoAmount rfl rfl

end Billing

namespace Dispatch

theorem selectMinBy_le {α : Type} (key : α → ℚ) (x : α) (ys : List α) :
    key (selectMinBy key x ys) ≤ key x ∧
      ∀ y ∈ ys, key (selectMinBy key x ys) ≤ key y := by
  induction ys generalizing x with
  | nil => exact ⟨le_refl _, by simp⟩
  | cons y ys ih =>
      simp only [selectMinBy]
      by_cases h : key y < key x
      · rw [if_pos h]
        obtain ⟨h1, h2⟩ := ih y
        refine ⟨le_trans h1 (le_of_lt h), ?_⟩
        intro z hz
        rcases List.mem_cons.mp hz with he | hm
        · exact he ▸ h1
        · exact h2 z hm
      · rw [if_neg h]
        obtain ⟨h1, h2⟩ := ih x
        refine ⟨h1, ?_⟩
        intro z hz
        rcases List.mem_cons.mp hz with he | hm
        · exact he ▸ le_trans h1 (le_of_not_lt h)
        · exact h2 z hm

theorem selectMinBy_first {α : Type} (key : α → ℚ) (x : α) (ys : List α) :
    ∃ pre post, x :: ys = pre ++ selectMinBy key x ys :: post ∧
      ∀ z ∈ pre, key (selectMinBy key x ys) < key z := by
  induction ys generalizing x with
  | nil => exact ⟨[], [], rfl, by simp⟩
  | cons y ys ih =>
      simp only [selectMinBy]
      by_cases h : key y < key x
      · rw [if_pos h]
        obtain ⟨pre, post, heq, hlt⟩ := ih y
        refine ⟨x :: pre, post, ?_, ?_⟩
        · rw [List.cons_append, ← heq]
        · intro z hz
          rcases List.mem_cons.mp hz with he | hm
          · exact he ▸ lt_of_le_of_lt (selectMinBy_le key y ys).1 h
          · exact hlt z hm
      · rw [if_neg h]
        obtain ⟨pre, post, heq, hlt⟩ := ih x
        cases pre with
        | nil =>
            simp only [List.nil_append] at heq
            injection heq with h1 h2
            refine ⟨[], y :: ys, ?_, by simp⟩
            rw [List.nil_append, ← h1]
        | cons w pre₂ =>
            rw [List.cons_append] at heq
            injection heq with h1 h2
            have hx : key (selectMinBy key x ys) < key x := by
              have := hlt w (List.mem_cons_self w pre₂)
              rwa [← h1] at this
            refine ⟨x :: y :: pre₂, post, ?_, ?_⟩
            · simp only [List.cons_append]
              rw [← h2]
            · intro z hz
              rcases List.mem_cons.mp hz with he | hm
              · exact he ▸ hx
              · rcases List.mem_cons.mp hm with he2 | hm2
                · exact he2 ▸ lt_of_lt_of_le hx (le_of_not_lt h)
                · exact hlt z (List.mem_cons_of_mem _ hm2)

unseal Rat.add Rat.sub Rat.mul Rat.inv in
/-- C8 counterexample: with hospital A at (exact) distance 1.0004 km and
hospital B at 1.0001 km, both with capacity 10 and severity 1, the two exact
scores differ (B is strictly smaller) but both round to 0.9, so the source's
sort by the ROUNDED score keeps the first-encountered hospital A — the
returned hospital does not minimise the claim's score expression. -/
theorem c8_counterexample_rounding_hides_smaller_score :
    pick_best_hospital dEx 1 [hospA, hospB] = some hospA ∧
    hospB ∈ [hospA, hospB] ∧
    score dEx 1 hospB < score dEx 1 hospA := by
  decide

/-- C8 (amended): for every non-empty hospital table, distance function and
severity, `pick_best_hospital` returns a hospital of the table minimising the
score ROUNDED to three decimals (`round(score, 3)` is the sort key in the
source), and among the hospitals attaining that minimum the
first-encountered one in iteration order is returned: every table entry
strictly before the returned one has a strictly larger rounded score. -/
theorem c8_amended_minimises_rounded_score_first_encountered
    (d : Hospital → ℚ) (severity : ℚ) (h : Hospital) (hs : List Hospital) :
    ∃ best, pick_best_hospital d severity (h :: hs) = some best ∧
      best ∈ h :: hs ∧
      (∀ x ∈ h :: hs,
        round3 (score d severity best) ≤ round3 (score d severity x)) ∧
      ∃ pre post, h :: hs = pre ++ best :: post ∧
        ∀ x ∈ pre,
          round3 (score d severity best) < round3 (score d severity x) := by
  refine ⟨selectMinBy (fun x => round3 (score d severity x)) h hs, rfl, ?_, ?_, ?_⟩
  · obtain ⟨pre, post, heq, -⟩ :=
      selectMinBy_first (fun x => round3 (score d severity x)) h hs
    rw [heq]
    exact List.mem_append_right pre (List.mem_cons_self _ _)
  · intro x hx
    obtain ⟨h1, h2⟩ := selectMinBy_le (fun x => round3 (score d severity x)) h hs
    rcases List.mem_cons.mp hx with he | hm
    · exact he ▸ h1
    · exact h2 x hm
  · exact selectMinBy_first (fun x => round3 (score d severity x)) h hs

end Dispatch

namespace BrokerConfig

/-- C10 counterexample: the dispatch and billing services register their
consumers with `auto_ack=True` and never issue `basic_qos`, so it is false
that every consumer of the three core components uses manual acknowledgement
with a per-channel prefetch of 16. -/
theorem c10_counterexample_dispatch_and_billings_use_auto_ack :
    dispatchConsumer.auto_ack = true ∧ billingsConsumer.auto_ack = true ∧
    dispatchPrefetch = none ∧ billingsPrefetch = none ∧
    ¬ (∀ c ∈ coreConsumers, c.auto_ack = false) := by
  decide

/-- C10 (amended): only the events-manager consumes with manual
acknowledgement — its three registrations all have `auto_ack=False` and its
channel sets `prefetch_count=16` — while the dispatch and billing consumers
are registered with `auto_ack=True` (no explicit ack/nack in their handlers)
and set no prefetch at all. -/
theorem c10_amended_only_events_manager_has_manual_ack_and_prefetch :
    (∀ c ∈ eventsManagerConsumers, c.auto_ack = false) ∧
    eventsManagerPrefetch = some 16 ∧
    dispatchConsumer.auto_ack = true ∧ dispatchPrefetch = none ∧
    billingsConsumer.auto_ack = true ∧ billingsPrefetch = none := by
  decide

end BrokerConfig
